import Mathlib

/-!
Shallow embedding of the shutdown coordinator and device-emulation manager
of the `bombie-bot` repository (Rust sources under `src/`), together with
proofs of the specified properties.

The Rust sources embedded here:
* `src/config.rs`    — `ShutdownState`, `SystemConfig` (signal flag + phase)
* `src/platform_specific.rs` — `unix::handle_shutdown`, `cleanup::cleanup_resources`
* `src/main.rs`      — the shutdown task spawned on Ctrl-C
* `src/emulation.rs` — `DeviceManager`, device metadata generation, catalog
  lookups and browser launch configuration

Rust `Result<T, anyhow::Error>` is modelled as `Except String T` (anyhow
errors are message strings).  The process-shared atomics of `SystemConfig`
become plain fields threaded through explicit state passing; each atomic
write in the source is an unconditional store, so a sequential state
transformer captures every interleaving of the (single) shutdown task.
-/

/-- Rust `ShutdownState` from `src/config.rs`: the tri-state shutdown phase. -/
inductive ShutdownState
  | Running
  | ShuttingDown
  | Completed
deriving DecidableEq, Repr

/-- The `as usize` discriminant used by `SystemConfig` to store the phase
in its `AtomicUsize` (`Running = 0, ShuttingDown = 1, Completed = 2`). -/
def ShutdownState.toUsize : ShutdownState → Nat
  | .Running => 0
  | .ShuttingDown => 1
  | .Completed => 2

/-- Rust `SystemConfig` from `src/config.rs`: the shared shutdown signal flag
(`AtomicBool`) and the shutdown phase stored as its `usize` discriminant
(`AtomicUsize`). -/
structure SystemConfig where
  shutdown_signal : Bool
  shutdown_state : Nat
deriving DecidableEq, Repr

/-- Rust `SystemConfig::new()`: signal cleared, phase `Running`. -/
def SystemConfig.new : SystemConfig :=
  { shutdown_signal := false
    shutdown_state := ShutdownState.Running.toUsize }

/-- Rust `SystemConfig::set_shutdown_state`: unconditional store of the phase
discriminant. -/
def SystemConfig.set_shutdown_state (c : SystemConfig) (state : ShutdownState) :
    SystemConfig :=
  { c with shutdown_state := state.toUsize }

/-- Rust `SystemConfig::request_shutdown`: store `true` into the signal flag,
then store `ShuttingDown` into the phase; always returns `Ok(())`. -/
def SystemConfig.request_shutdown (c : SystemConfig) :
    Except String Unit × SystemConfig :=
  (Except.ok (),
   SystemConfig.set_shutdown_state { c with shutdown_signal := true }
     ShutdownState.ShuttingDown)

/-- Rust `unix::handle_shutdown` from `src/platform_specific.rs`.  The outcome of
`signal::kill(pid, SIGTERM)` is an environment input: on `Err(e)` the
function returns the SIGTERM failure without touching the config; on `Ok` it
calls `config.request_shutdown()`. -/
def handle_shutdown (kill_result : Except String Unit) (config : SystemConfig) :
    Except String Unit × SystemConfig :=
  match kill_result with
  | Except.error e =>
      (Except.error ("Failed to send SIGTERM: " ++ e), config)
  | Except.ok _ =>
      match config.request_shutdown with
      | (r, c) => (r, c)

/-- Environment inputs consumed by `cleanup::cleanup_resources`
(`src/platform_specific.rs`): whether the 5-second `tokio::time::timeout`
elapses before the inner future completes, and the outcomes of the
fallible operations the inner future performs in order. -/
structure CleanupEnv where
  timed_out : Bool
  gc_result : Except String Unit
  current_dir : Except String String
  cache_exists : Bool
  remove_result : Except String Unit
deriving Repr

/-- Rust `cleanup::cleanup_resources`: the inner async block swallows the Python
GC error and the cache-delete error (logging only), but propagates a
`std::env::current_dir()` failure via `?`; the surrounding
`timeout` plus `map_err` plus `?` turns deadline expiry into the
"Cleanup timeout exceeded" error. -/
def cleanup_resources (env : CleanupEnv) : Except String Unit :=
  if env.timed_out then
    Except.error "Cleanup timeout exceeded"
  else
    match env.current_dir with
    | Except.error e => Except.error e
    | Except.ok _ => Except.ok ()

/-- Program counter of the shutdown task spawned in `main` (`src/main.rs`):
before the platform terminator runs, after it succeeded, after cleanup
succeeded and `Completed` was stored, or failed (error path ending in
`std::process::exit(1)` / error return). -/
inductive ShutdownPc
  | start
  | signaled
  | done
  | failed
deriving DecidableEq, Repr

/-- State of the shutdown task: its program counter and the shared
`SystemConfig`. -/
structure ShutdownTaskState where
  pc : ShutdownPc
  config : SystemConfig
deriving DecidableEq, Repr

/-- One step of the shutdown task of `src/main.rs`: `handle_shutdown` with
some SIGTERM outcome, then `cleanup_resources` with some environment, then
`set_shutdown_state(Completed)`; any error leads to the failed/exit(1)
path without further phase writes. -/
inductive ShutdownStep : ShutdownTaskState → ShutdownTaskState → Prop
  | kill_fail (c : SystemConfig) (e : String) :
      ShutdownStep ⟨ShutdownPc.start, c⟩
        ⟨ShutdownPc.failed, (handle_shutdown (Except.error e) c).2⟩
  | kill_ok (c : SystemConfig) :
      ShutdownStep ⟨ShutdownPc.start, c⟩
        ⟨ShutdownPc.signaled, (handle_shutdown (Except.ok ()) c).2⟩
  | cleanup_fail (c : SystemConfig) (env : CleanupEnv)
      (h : (cleanup_resources env).isOk = false) :
      ShutdownStep ⟨ShutdownPc.signaled, c⟩ ⟨ShutdownPc.failed, c⟩
  | cleanup_ok (c : SystemConfig) (env : CleanupEnv)
      (h : (cleanup_resources env).isOk = true) :
      ShutdownStep ⟨ShutdownPc.signaled, c⟩
        ⟨ShutdownPc.done, c.set_shutdown_state ShutdownState.Completed⟩

/-- Initial state of the shutdown task: fresh `SystemConfig` (phase
`Running`), terminator not yet invoked. -/
def shutdownInit : ShutdownTaskState :=
  ⟨ShutdownPc.start, SystemConfig.new⟩

/-- Reachability of shutdown-task states from the initial state. -/
def ShutdownReachable (s : ShutdownTaskState) : Prop :=
  Relation.ReflTransGen ShutdownStep shutdownInit s

theorem request_shutdown_state (c : SystemConfig) :
    (c.request_shutdown).2 =
      { shutdown_signal := true
        shutdown_state := ShutdownState.ShuttingDown.toUsize } := rfl

theorem cleanup_ok_iff (env : CleanupEnv) :
    (cleanup_resources env).isOk = true ↔
      env.timed_out = false ∧ env.current_dir.isOk = true := by
  unfold cleanup_resources
  cases h : env.timed_out <;> cases hd : env.current_dir <;>
    simp [Except.isOk, Except.toBool]

/-! ## Device emulation (`src/emulation.rs`) -/

/-- Rust `PlatformType` from `src/emulation.rs`. -/
inductive PlatformType
  | IOS
  | Android
deriving DecidableEq, Repr, Inhabited

/-- Rust `ScreenMetrics` from `src/emulation.rs`; the `f32` pixel ratio is
modelled as an exact rational. -/
structure ScreenMetrics where
  width : Nat
  height : Nat
  pixel_ratio : Rat
  touch_points : Nat
deriving DecidableEq, Repr, Inhabited

/-- Rust `WebKitFlags` from `src/emulation.rs` (all fields default to `false`
via `derive(Default)`). -/
structure WebKitFlags where
  enable_inspect : Bool
  enable_remote_debugging : Bool
  force_webkit_views : Bool
deriving DecidableEq, Repr, Inhabited

/-- Rust `Default::default()` for `WebKitFlags`. -/
def WebKitFlags.default : WebKitFlags :=
  { enable_inspect := false
    enable_remote_debugging := false
    force_webkit_views := false }

/-- Rust `ChromeFlags` from `src/emulation.rs` (all fields default to `false`
via `derive(Default)`). -/
structure ChromeFlags where
  enable_automation : Bool
  disable_web_security : Bool
  ignore_certificate_errors : Bool
deriving DecidableEq, Repr, Inhabited

/-- Rust `Default::default()` for `ChromeFlags`. -/
def ChromeFlags.default : ChromeFlags :=
  { enable_automation := false
    disable_web_security := false
    ignore_certificate_errors := false }

/-- Rust `WebViewData` from `src/emulation.rs`. -/
structure WebViewData where
  engine_version : String
  supported_apis : List String
  webkit_flags : Option WebKitFlags
  chrome_flags : Option ChromeFlags
deriving DecidableEq, Repr, Inhabited

/-- Rust `HardwareInfo` from `src/emulation.rs`. -/
structure HardwareInfo where
  model : String
  platform_version : String
  memory : String
  cpu_cores : Nat
  gpu_renderer : String
deriving DecidableEq, Repr, Inhabited

/-- Rust `ConnectionInfo` from `src/emulation.rs`. -/
structure ConnectionInfo where
  network_type : String
  bandwidth : String
  rtt : Nat
  throughput : Nat
deriving DecidableEq, Repr, Inhabited

/-- Rust `DeviceMetadata` from `src/emulation.rs`. -/
structure DeviceMetadata where
  device_id : String
  platform : PlatformType
  user_agent : String
  app_version : String
  screen_metrics : ScreenMetrics
  language : String
  lang_code : String
  timezone : String
  webview_data : WebViewData
  hardware_info : HardwareInfo
  connection_info : ConnectionInfo
deriving DecidableEq, Repr, Inhabited

/-- Rust `WebKitConfig` from `src/emulation.rs`. -/
structure WebKitConfig where
  user_agent : String
  webkit_version : String
  platform_version : String
  build_number : String
deriving DecidableEq, Repr

/-- Rust `ChromiumConfig` from `src/emulation.rs`. -/
structure ChromiumConfig where
  user_agent : String
  chrome_version : String
  webview_version : String
  build_version : String
deriving DecidableEq, Repr

/-- Rust `EmulatedBrowser` from `src/emulation.rs`. -/
inductive EmulatedBrowser
  | Webkit (config : WebKitConfig)
  | ChromiumBased (config : ChromiumConfig)
deriving DecidableEq, Repr

/-- Rust `EmulatedDevice` from `src/emulation.rs`. -/
structure EmulatedDevice where
  metadata : DeviceMetadata
  browser : EmulatedBrowser
deriving DecidableEq, Repr

/-- The `HashMap<String, EmulatedDevice>` of `DeviceManager`, modelled
extensionally as a map from keys to optional values. -/
def DevMap : Type := String → Option EmulatedDevice

/-- Rust `HashMap::new()`. -/
def DevMap.empty : DevMap := fun _ => none

/-- Rust `HashMap::insert`: overwrites any existing value at the key. -/
def DevMap.insert (m : DevMap) (k : String) (v : EmulatedDevice) : DevMap :=
  fun q => if q = k then some v else m q

/-- Rust `DeviceManager` from `src/emulation.rs`. -/
structure DeviceManager where
  devices : DevMap

/-- Rust `DeviceManager::new()`. -/
def DeviceManager.new : DeviceManager :=
  { devices := DevMap.empty }

/-- Rust `DeviceManager::generate_ios_metadata`: fixed iOS template keyed only
by the caller-supplied `device_id`; always returns `Ok`. -/
def DeviceManager.generate_ios_metadata (_self : DeviceManager)
    (device_id : String) : Except String DeviceMetadata :=
  Except.ok
    { device_id := device_id
      platform := PlatformType.IOS
      app_version := "11.3.1"
      user_agent := "Mozilla/5.0 (iPhone; CPU iPhone OS 16_0 like Mac OS X) AppleWebKit/605.1.15 (KHTML, like Gecko) Version/16.0 Mobile/15E148 Safari/604.1"
      screen_metrics :=
        { width := 390
          height := 844
          pixel_ratio := 3
          touch_points := 5 }
      language := "en-US"
      lang_code := "en"
      timezone := "UTC"
      webview_data :=
        { engine_version := "605.1.15"
          supported_apis := ["WebKit", "WebGL", "WebRTC"]
          webkit_flags := some WebKitFlags.default
          chrome_flags := none }
      hardware_info :=
        { model := "iPhone 14 Pro"
          platform_version := "iOS 11.3.1"
          memory := "6GB"
          cpu_cores := 6
          gpu_renderer := "Apple GPU" }
      connection_info :=
        { network_type := "wifi"
          bandwidth := "10mbps"
          rtt := 50
          throughput := 1000 } }

/-- Rust `DeviceManager::generate_android_metadata`: fixed Android template
keyed only by the caller-supplied `device_id`; always returns `Ok`.
The `f32` pixel ratio `2.625` is the rational `21/8`. -/
def DeviceManager.generate_android_metadata (_self : DeviceManager)
    (device_id : String) : Except String DeviceMetadata :=
  Except.ok
    { device_id := device_id
      platform := PlatformType.Android
      app_version := "11.3.1"
      user_agent := "Mozilla/5.0 (Linux; Android 13; SM-G998B) AppleWebKit/537.36 (KHTML, like Gecko) Chrome/97.0.4692.98 Mobile Safari/537.36"
      screen_metrics :=
        { width := 412
          height := 915
          pixel_ratio := 21 / 8
          touch_points := 5 }
      language := "en-US"
      lang_code := "en"
      timezone := "UTC"
      webview_data :=
        { engine_version := "97.0.4692.98"
          supported_apis := ["WebView", "WebGL", "WebRTC"]
          webkit_flags := none
          chrome_flags := some ChromeFlags.default }
      hardware_info :=
        { model := "Samsung Galaxy S21 Ultra"
          platform_version := "Android 13"
          memory := "12GB"
          cpu_cores := 8
          gpu_renderer := "Adreno 660" }
      connection_info :=
        { network_type := "5g"
          bandwidth := "20mbps"
          rtt := 30
          throughput := 2000 } }

/-- Rust `DeviceManager::create_ios_device`: generate the iOS metadata, build
the matching `WebKitConfig` from it, and insert the pair at `device_id`. -/
def DeviceManager.create_ios_device (m : DeviceManager) (device_id : String) :
    Except String DeviceManager :=
  match m.generate_ios_metadata device_id with
  | Except.error e => Except.error e
  | Except.ok metadata =>
      let webkit_config : WebKitConfig :=
        { user_agent := metadata.user_agent
          webkit_version := "605.1.15"
          platform_version := metadata.hardware_info.platform_version
          build_number := "15E148" }
      Except.ok
        { devices :=
            m.devices.insert device_id
              { metadata := metadata
                browser := EmulatedBrowser.Webkit webkit_config } }

/-- Rust `DeviceManager::create_android_device`: generate the Android metadata,
build the matching `ChromiumConfig` from it, and insert the pair at
`device_id`. -/
def DeviceManager.create_android_device (m : DeviceManager)
    (device_id : String) : Except String DeviceManager :=
  match m.generate_android_metadata device_id with
  | Except.error e => Except.error e
  | Except.ok metadata =>
      let chrome_config : ChromiumConfig :=
        { user_agent := metadata.user_agent
          chrome_version := "97.0.4692.98"
          webview_version := metadata.webview_data.engine_version
          build_version := "4692.98" }
      Except.ok
        { devices :=
            m.devices.insert device_id
              { metadata := metadata
                browser := EmulatedBrowser.ChromiumBased chrome_config } }

/-- Model of the `chromiumoxide::BrowserConfig` assembled by
`EmulatedBrowser::get_browser_config`: the `window_size` passed to the
builder and the ordered list of `--...` arguments added with `.arg`. -/
structure BrowserConfigModel where
  window_width : Nat
  window_height : Nat
  args : List String
deriving DecidableEq, Repr

/-- Rust `EmulatedBrowser::get_browser_config` from `src/emulation.rs`: each
variant builds a `BrowserConfig` with the requested window size, a
`--user-agent=` override taken from its own config, and its literal list
of hardening flags (transcribed per branch, as in the source). -/
def EmulatedBrowser.get_browser_config (b : EmulatedBrowser)
    (width height : Nat) : Except String BrowserConfigModel :=
  match b with
  | EmulatedBrowser.Webkit webkit_config =>
      Except.ok
        { window_width := width
          window_height := height
          args :=
            [ "--user-agent=" ++ webkit_config.user_agent
            , "--disable-background-networking"
            , "--disable-background-timer-throttling"
            , "--disable-backgrounding-occluded-windows"
            , "--disable-breakpad"
            , "--disable-component-update"
            , "--disable-default-apps"
            , "--disable-dev-shm-usage"
            , "--disable-domain-reliability"
            , "--disable-extensions"
            , "--disable-features=AudioServiceOutOfProcess"
            , "--disable-hang-monitor"
            , "--disable-ipc-flooding-protection"
            , "--force-webview"
            , "--metrics-recording-only" ] }
  | EmulatedBrowser.ChromiumBased chrome_config =>
      Except.ok
        { window_width := width
          window_height := height
          args :=
            [ "--user-agent=" ++ chrome_config.user_agent
            , "--disable-background-networking"
            , "--disable-background-timer-throttling"
            , "--disable-backgrounding-occluded-windows"
            , "--disable-breakpad"
            , "--disable-component-update"
            , "--disable-default-apps"
            , "--disable-dev-shm-usage"
            , "--disable-domain-reliability"
            , "--disable-extensions"
            , "--disable-features=AudioServiceOutOfProcess"
            , "--disable-hang-monitor"
            , "--disable-ipc-flooding-protection"
            , "--force-webview"
            , "--metrics-recording-only" ] }

/-- The `GLOBAL_DEVICES` once-cell of `src/emulation.rs`: `none` before
`initialize_emulation` has completed, `some manager` afterwards. -/
def GlobalDevices : Type := Option DeviceManager

/-- Rust `get_device_metadata` from `src/emulation.rs`: fails with the
not-initialized error while the global cell is unset, with the not-found
error for absent ids, and otherwise clones the stored metadata. -/
def get_device_metadata (global_devices : GlobalDevices) (device_id : String) :
    Except String DeviceMetadata :=
  match global_devices with
  | none => Except.error "Device manager not initialized"
  | some manager =>
      match manager.devices device_id with
      | some device => Except.ok device.metadata
      | none => Except.error "Device not found"

/-- Rust `get_device_browser` from `src/emulation.rs`: same lookup discipline as
`get_device_metadata`, returning the stored browser profile (the `Arc`
wrapper is erased). -/
def get_device_browser (global_devices : GlobalDevices) (device_id : String) :
    Except String EmulatedBrowser :=
  match global_devices with
  | none => Except.error "Device manager not initialized"
  | some manager =>
      match manager.devices device_id with
      | some device => Except.ok device.browser
      | none => Except.error "Device not found"

/-- Rust `initialize_emulation` from `src/emulation.rs`: build a fresh manager,
create the two seed devices, and publish it in the global once-cell;
`OnceCell::set` fails when the cell is already occupied. -/
def initialize_emulation (global_devices : GlobalDevices) :
    Except String GlobalDevices :=
  match DeviceManager.new.create_ios_device "ios_device" with
  | Except.error e => Except.error e
  | Except.ok m1 =>
      match m1.create_android_device "android_device" with
      | Except.error e => Except.error e
      | Except.ok m2 =>
          match global_devices with
          | some _ => Except.error "Failed to set global devices"
          | none => Except.ok (some m2)

/-- The catalog contents after a successful `initialize_emulation` run. -/
def initializedManager : DeviceManager :=
  match initialize_emulation none with
  | Except.ok (some m) => m
  | _ => DeviceManager.new

/-- The user agent carried by either variant of `EmulatedBrowser`. -/
def EmulatedBrowser.user_agent : EmulatedBrowser → String
  | EmulatedBrowser.Webkit c => c.user_agent
  | EmulatedBrowser.ChromiumBased c => c.user_agent

/-! ## Theorems: shutdown coordinator -/

/-- Invariant of the shutdown task: before the terminator has run the phase
is still `Running`, and the stored discriminant never exceeds the one of
`Completed`. -/
def ShutdownInv (s : ShutdownTaskState) : Prop :=
  (s.pc = ShutdownPc.start →
    s.config.shutdown_state = ShutdownState.Running.toUsize) ∧
  s.config.shutdown_state ≤ ShutdownState.Completed.toUsize

theorem shutdownInv_init : ShutdownInv shutdownInit := by
  constructor <;> simp [shutdownInit, SystemConfig.new, ShutdownState.toUsize]

theorem shutdownStep_preserves (s s' : ShutdownTaskState)
    (hinv : ShutdownInv s) (h : ShutdownStep s s') :
    ShutdownInv s' ∧ s.config.shutdown_state ≤ s'.config.shutdown_state := by
  cases h with
  | kill_fail c e =>
      refine ⟨⟨?_, ?_⟩, ?_⟩
      · intro hpc; exact absurd hpc (by simp)
      · simpa [handle_shutdown] using hinv.2
      · simp [handle_shutdown]
  | kill_ok c =>
      refine ⟨⟨?_, ?_⟩, ?_⟩
      · intro hpc; exact absurd hpc (by simp)
      · simp [handle_shutdown, SystemConfig.request_shutdown,
          SystemConfig.set_shutdown_state, ShutdownState.toUsize]
      · have h0 := hinv.1 rfl
        simp only [ShutdownState.toUsize] at h0
        simp [handle_shutdown, SystemConfig.request_shutdown,
          SystemConfig.set_shutdown_state, ShutdownState.toUsize]
        omega
  | cleanup_fail c env hc =>
      refine ⟨⟨?_, hinv.2⟩, le_refl _⟩
      intro hpc; exact absurd hpc (by simp)
  | cleanup_ok c env hc =>
      refine ⟨⟨?_, ?_⟩, ?_⟩
      · intro hpc; exact absurd hpc (by simp)
      · simp [SystemConfig.set_shutdown_state, ShutdownState.toUsize]
      · simpa [SystemConfig.set_shutdown_state, ShutdownState.toUsize]
          using hinv.2

theorem shutdownInv_rtg (s s' : ShutdownTaskState) (hinv : ShutdownInv s)
    (h : Relation.ReflTransGen ShutdownStep s s') : ShutdownInv s' := by
  induction h with
  | refl => exact hinv
  | tail hab hbc ih => exact (shutdownStep_preserves _ _ ih hbc).1

theorem phase_mono_rtg (s s' : ShutdownTaskState) (hinv : ShutdownInv s)
    (h : Relation.ReflTransGen ShutdownStep s s') :
    s.config.shutdown_state ≤ s'.config.shutdown_state := by
  induction h with
  | refl => exact le_refl _
  | tail hab hbc ih =>
      exact le_trans ih
        (shutdownStep_preserves _ _ (shutdownInv_rtg _ _ hinv hab) hbc).2

/-- C1: starting from the initial `Running` state, every phase transition
performed by the shutdown task (`request_shutdown` inside the platform
terminator, `set_shutdown_state(Completed)` after cleanup) moves the
stored phase discriminant forward or leaves it unchanged, so along every
reachable execution the sequence of phase reads is non-decreasing under
`Running < ShuttingDown < Completed`. -/
theorem shutdown_phase_never_regresses (s s' : ShutdownTaskState)
    (hs : ShutdownReachable s)
    (h : Relation.ReflTransGen ShutdownStep s s') :
    s.config.shutdown_state ≤ s'.config.shutdown_state :=
  phase_mono_rtg s s' (shutdownInv_rtg shutdownInit s shutdownInv_init hs) h

/-- Witness for C1: the concrete reachable step in which the terminator
succeeds and the phase advances from `Running` to `ShuttingDown`. -/
theorem shutdown_phase_never_regresses_witness :
    shutdownInit.config.shutdown_state ≤
      (ShutdownTaskState.mk ShutdownPc.signaled
        (handle_shutdown (Except.ok ()) SystemConfig.new).2).config.shutdown_state :=
  shutdown_phase_never_regresses shutdownInit
    (ShutdownTaskState.mk ShutdownPc.signaled
      (handle_shutdown (Except.ok ()) SystemConfig.new).2)
    Relation.ReflTransGen.refl
    (Relation.ReflTransGen.single (ShutdownStep.kill_ok SystemConfig.new))

/-- C2: when the SIGTERM delivery fails (e.g. nonexistent pid), the
platform terminator returns the platform error and leaves both the phase
and the signal flag untouched; when it succeeds it returns `Ok` and has
informed the coordinator, the phase now being `ShuttingDown` and the
signal flag set. -/
theorem handle_shutdown_failure_and_success (c : SystemConfig) (e : String) :
    (handle_shutdown (Except.error e) c).1 =
        Except.error ("Failed to send SIGTERM: " ++ e) ∧
    (handle_shutdown (Except.error e) c).2 = c ∧
    (handle_shutdown (Except.ok ()) c).1 = Except.ok () ∧
    (handle_shutdown (Except.ok ()) c).2.shutdown_state =
        ShutdownState.ShuttingDown.toUsize ∧
    (handle_shutdown (Except.ok ()) c).2.shutdown_signal = true := by
  refine ⟨rfl, rfl, ?_, ?_, ?_⟩ <;>
    simp [handle_shutdown, SystemConfig.request_shutdown,
      SystemConfig.set_shutdown_state]

/-- C7: `request_shutdown` sets the signal flag, stores phase
`ShuttingDown`, and is idempotent in effect — a repeated call yields the
same state, and after any number of calls the phase is at `ShuttingDown`
or later. -/
theorem request_shutdown_idempotent (c : SystemConfig) :
    (c.request_shutdown).2.shutdown_signal = true ∧
    (c.request_shutdown).2.shutdown_state = ShutdownState.ShuttingDown.toUsize ∧
    ((c.request_shutdown).2.request_shutdown).2 = (c.request_shutdown).2 ∧
    ShutdownState.ShuttingDown.toUsize ≤
      ((c.request_shutdown).2.request_shutdown).2.shutdown_state := by
  refine ⟨rfl, rfl, rfl, le_refl _⟩

/-- C10: `request_shutdown` is infallible — for every state of the
`SystemConfig` it returns `Ok(())`, and afterwards the signal flag is set
and the phase is `ShuttingDown`. -/
theorem request_shutdown_infallible (c : SystemConfig) :
    (c.request_shutdown).1 = Except.ok () ∧
    (c.request_shutdown).2.shutdown_signal = true ∧
    (c.request_shutdown).2.shutdown_state = ShutdownState.ShuttingDown.toUsize :=
  ⟨rfl, rfl, rfl⟩

/-- Counterexample to C3 as stated: when `std::env::current_dir()` fails
inside the cleanup block, `cleanup_resources` returns an error even though
the 5-second deadline has not elapsed, and that error is not the
`Timeout` condition. -/
theorem cleanup_error_without_timeout :
    (cleanup_resources
      { timed_out := false
        gc_result := Except.ok ()
        current_dir := Except.error "getcwd error"
        cache_exists := false
        remove_result := Except.ok () }).isOk = false ∧
    (CleanupEnv.timed_out
      { timed_out := false
        gc_result := Except.ok ()
        current_dir := Except.error "getcwd error"
        cache_exists := false
        remove_result := Except.ok () }) = false ∧
    cleanup_resources
      { timed_out := false
        gc_result := Except.ok ()
        current_dir := Except.error "getcwd error"
        cache_exists := false
        remove_result := Except.ok () } ≠
      Except.error "Cleanup timeout exceeded" := by
  refine ⟨rfl, rfl, fun hcontra => ?_⟩
  simp only [cleanup_resources] at hcontra
  injection hcontra with h1
  exact absurd h1 (by decide)

/-- C3 amended: the reclaimer swallows the interpreter-GC failure and the
cache-delete failure (the result does not depend on either outcome), and
— provided resolving the current working directory succeeds — it returns
an error exactly when the 5-second deadline elapses, in which case the
error is the `Timeout` condition regardless of which step was in
progress; no partial effect is rolled back.  (As stated the claim is
false: a `current_dir` failure is propagated as a non-timeout error.) -/
theorem cleanup_resources_spec (env : CleanupEnv)
    (gc rm : Except String Unit)
    (hdir : env.current_dir.isOk = true) :
    cleanup_resources { env with gc_result := gc, remove_result := rm } =
        cleanup_resources env ∧
    cleanup_resources env =
      (if env.timed_out then Except.error "Cleanup timeout exceeded"
       else Except.ok ()) := by
  constructor
  · rfl
  · unfold cleanup_resources
    cases ht : env.timed_out
    · cases hd : env.current_dir
      · rw [hd] at hdir; exact absurd hdir (by simp [Except.isOk, Except.toBool])
      · simp
    · simp

/-! ## Theorems: fingerprint catalog and factory -/

/-- C4: catalog lookups before `initialize_emulation` has completed fail
with the not-initialized condition; after initialization, lookups for ids
absent from the catalog fail with the not-found condition; lookups for
present ids succeed and — the lookups being read-only functions of the
immutable catalog — return the identical stored value on every call. -/
theorem catalog_lookup_spec (before_id absent_id present_id : String)
    (manager : DeviceManager)
    (habs : manager.devices absent_id = none)
    (hpres : (manager.devices present_id).isSome = true) :
    get_device_metadata none before_id =
        Except.error "Device manager not initialized" ∧
    get_device_browser none before_id =
        Except.error "Device manager not initialized" ∧
    get_device_metadata (some manager) absent_id =
        Except.error "Device not found" ∧
    get_device_browser (some manager) absent_id =
        Except.error "Device not found" ∧
    get_device_metadata (some manager) present_id =
        Except.ok ((manager.devices present_id).get hpres).metadata ∧
    get_device_browser (some manager) present_id =
        Except.ok ((manager.devices present_id).get hpres).browser := by
  obtain ⟨d, hd⟩ := Option.isSome_iff_exists.mp hpres
  refine ⟨rfl, rfl, ?_, ?_, ?_, ?_⟩ <;>
    simp [get_device_metadata, get_device_browser, habs, hd]

/-- Witness for C4: the catalog produced by `initialize_emulation`, an id
it does not contain, and the seeded `"ios_device"` id. -/
theorem catalog_lookup_spec_witness :
    initializedManager.devices "missing_device" = none ∧
    (initializedManager.devices "ios_device").isSome = true ∧
    get_device_metadata none "ios_device" =
      Except.error "Device manager not initialized" :=
  ⟨rfl, rfl,
   (catalog_lookup_spec "ios_device" "missing_device" "ios_device"
      initializedManager rfl rfl).1⟩

/-- C5: for either platform, the user agent stored in the generated
metadata and the user agent embedded in the matching launch profile are
byte-identical. -/
theorem factory_user_agent_consistent (m : DeviceManager) (device_id : String)
    (mi ma : DeviceManager)
    (hios : m.create_ios_device device_id = Except.ok mi)
    (hand : m.create_android_device device_id = Except.ok ma)
    (hdi : (mi.devices device_id).isSome = true)
    (hda : (ma.devices device_id).isSome = true) :
    ((mi.devices device_id).get hdi).browser.user_agent =
        ((mi.devices device_id).get hdi).metadata.user_agent ∧
    ((ma.devices device_id).get hda).browser.user_agent =
        ((ma.devices device_id).get hda).metadata.user_agent := by
  simp only [DeviceManager.create_ios_device,
    DeviceManager.generate_ios_metadata, Except.ok.injEq] at hios
  simp only [DeviceManager.create_android_device,
    DeviceManager.generate_android_metadata, Except.ok.injEq] at hand
  subst hios
  subst hand
  constructor <;> simp [DevMap.insert, EmulatedBrowser.user_agent]

/-- Manager holding the iOS device created at id `"dev_w"`. -/
def iosManagerW : DeviceManager :=
  (DeviceManager.new.create_ios_device "dev_w").toOption.getD DeviceManager.new

/-- Manager holding the Android device created at id `"dev_w"`. -/
def androidManagerW : DeviceManager :=
  (DeviceManager.new.create_android_device "dev_w").toOption.getD DeviceManager.new

/-- Witness for C5 at the concrete id `"dev_w"`. -/
theorem factory_user_agent_consistent_witness :
    DeviceManager.new.create_ios_device "dev_w" = Except.ok iosManagerW ∧
    DeviceManager.new.create_android_device "dev_w" = Except.ok androidManagerW ∧
    ((iosManagerW.devices "dev_w").get (by rfl)).browser.user_agent =
        ((iosManagerW.devices "dev_w").get (by rfl)).metadata.user_agent ∧
    ((androidManagerW.devices "dev_w").get (by rfl)).browser.user_agent =
        ((androidManagerW.devices "dev_w").get (by rfl)).metadata.user_agent :=
  ⟨rfl, rfl,
   (factory_user_agent_consistent DeviceManager.new "dev_w" iosManagerW
      androidManagerW rfl rfl (by rfl) (by rfl)).1,
   (factory_user_agent_consistent DeviceManager.new "dev_w" iosManagerW
      androidManagerW rfl rfl (by rfl) (by rfl)).2⟩

/-- C6: in every metadata record produced by the factory, the platform
determines the capability-flag variant exhaustively and mutually
exclusively: `IOS` iff webkit flags present and chrome flags absent,
`Android` iff chrome flags present and webkit flags absent; exactly one
variant is populated. -/
theorem platform_determines_flags (m : DeviceManager) (device_id : String)
    (md : DeviceMetadata)
    (h : m.generate_ios_metadata device_id = Except.ok md ∨
         m.generate_android_metadata device_id = Except.ok md) :
    (md.platform = PlatformType.IOS ↔
      md.webview_data.webkit_flags.isSome = true ∧
      md.webview_data.chrome_flags = none) ∧
    (md.platform = PlatformType.Android ↔
      md.webview_data.chrome_flags.isSome = true ∧
      md.webview_data.webkit_flags = none) ∧
    ((md.webview_data.webkit_flags.isSome = true ∧
        md.webview_data.chrome_flags = none) ∨
     (md.webview_data.chrome_flags.isSome = true ∧
        md.webview_data.webkit_flags = none)) := by
  rcases h with h | h
  · simp only [DeviceManager.generate_ios_metadata, Except.ok.injEq] at h
    subst h
    refine ⟨by simp, by simp, Or.inl (by simp)⟩
  · simp only [DeviceManager.generate_android_metadata, Except.ok.injEq] at h
    subst h
    refine ⟨by simp, by simp, Or.inr (by simp)⟩

/-- Metadata record produced by the iOS generator at id `"ios_device"`. -/
def iosSeedMetadata : DeviceMetadata :=
  (DeviceManager.new.generate_ios_metadata "ios_device").toOption.getD default

/-- Witness for C6 at the concrete iOS seed metadata. -/
theorem platform_determines_flags_witness :
    DeviceManager.new.generate_ios_metadata "ios_device" =
        Except.ok iosSeedMetadata ∧
    (iosSeedMetadata.platform = PlatformType.IOS ↔
      iosSeedMetadata.webview_data.webkit_flags.isSome = true ∧
      iosSeedMetadata.webview_data.chrome_flags = none) :=
  ⟨rfl,
   (platform_determines_flags DeviceManager.new "ios_device" iosSeedMetadata
      (Or.inl rfl)).1⟩

/-- C8: for every viewport size, the two launch-profile variants yield
launch configurations with identical window size and identical argument
lists apart from the user-agent override, which carries each profile's
own user agent; when the two user agents coincide the configurations are
identical. -/
theorem browser_config_variant_agnostic (width height : Nat)
    (webkit_config : WebKitConfig) (chrome_config : ChromiumConfig) :
    ∃ cw cm,
      (EmulatedBrowser.Webkit webkit_config).get_browser_config width height =
          Except.ok cw ∧
      (EmulatedBrowser.ChromiumBased chrome_config).get_browser_config width
          height = Except.ok cm ∧
      cw.window_width = width ∧ cw.window_height = height ∧
      cm.window_width = width ∧ cm.window_height = height ∧
      cw.args = ("--user-agent=" ++ webkit_config.user_agent) :: cw.args.tail ∧
      cm.args = ("--user-agent=" ++ chrome_config.user_agent) :: cm.args.tail ∧
      cw.args.tail = cm.args.tail ∧
      (webkit_config.user_agent = chrome_config.user_agent → cw = cm) := by
  refine ⟨_, _, rfl, rfl, rfl, rfl, rfl, rfl, rfl, rfl, rfl, ?_⟩
  intro hua
  rw [hua]

/-- C9: creating a device whose id is already in the catalog does not
fail and silently replaces the stored entry, so the last creation for a
given id wins: after iOS-then-Android the entry is the Android one, and a
further iOS creation makes it the iOS one again. -/
theorem create_device_overwrites (m : DeviceManager) (device_id : String)
    (m1 m2 m3 : DeviceManager)
    (h1 : m.create_ios_device device_id = Except.ok m1)
    (h2 : m1.create_android_device device_id = Except.ok m2)
    (h3 : m2.create_ios_device device_id = Except.ok m3)
    (hd2 : (m2.devices device_id).isSome = true)
    (hd3 : (m3.devices device_id).isSome = true) :
    (m.create_ios_device device_id).isOk = true ∧
    (m1.create_android_device device_id).isOk = true ∧
    (m2.create_ios_device device_id).isOk = true ∧
    ((m2.devices device_id).get hd2).metadata.platform = PlatformType.Android ∧
    (∃ cfg, ((m2.devices device_id).get hd2).browser =
        EmulatedBrowser.ChromiumBased cfg) ∧
    ((m3.devices device_id).get hd3).metadata.platform = PlatformType.IOS ∧
    (∃ cfg, ((m3.devices device_id).get hd3).browser =
        EmulatedBrowser.Webkit cfg) := by
  simp only [DeviceManager.create_ios_device,
    DeviceManager.generate_ios_metadata, Except.ok.injEq] at h1
  subst h1
  simp only [DeviceManager.create_android_device,
    DeviceManager.generate_android_metadata, Except.ok.injEq] at h2
  subst h2
  simp only [DeviceManager.create_ios_device,
    DeviceManager.generate_ios_metadata, Except.ok.injEq] at h3
  subst h3
  refine ⟨?_, ?_, ?_, ?_, ?_, ?_, ?_⟩ <;>
    simp [DeviceManager.create_ios_device, DeviceManager.create_android_device,
      DeviceManager.generate_ios_metadata, DeviceManager.generate_android_metadata,
      DevMap.insert, Except.isOk, Except.toBool]

/-- Managers reached by creating three times at the duplicate id
`"dup_device"`: iOS, then Android, then iOS again. -/
def dupManager1 : DeviceManager :=
  (DeviceManager.new.create_ios_device "dup_device").toOption.getD
    DeviceManager.new

/-- Second stage of the duplicate-creation sequence. -/
def dupManager2 : DeviceManager :=
  (dupManager1.create_android_device "dup_device").toOption.getD
    DeviceManager.new

/-- Third stage of the duplicate-creation sequence. -/
def dupManager3 : DeviceManager :=
  (dupManager2.create_ios_device "dup_device").toOption.getD
    DeviceManager.new

/-- Witness for C9 at the concrete id `"dup_device"`. -/
theorem create_device_overwrites_witness :
    DeviceManager.new.create_ios_device "dup_device" = Except.ok dupManager1 ∧
    dupManager1.create_android_device "dup_device" = Except.ok dupManager2 ∧
    dupManager2.create_ios_device "dup_device" = Except.ok dupManager3 ∧
    ((dupManager2.devices "dup_device").get (by rfl)).metadata.platform =
        PlatformType.Android ∧
    ((dupManager3.devices "dup_device").get (by rfl)).metadata.platform =
        PlatformType.IOS :=
  ⟨rfl, rfl, rfl,
   (create_device_overwrites DeviceManager.new "dup_device" dupManager1
      dupManager2 dupManager3 rfl rfl rfl (by rfl) (by rfl)).2.2.2.1,
   (create_device_overwrites DeviceManager.new "dup_device" dupManager1
      dupManager2 dupManager3 rfl rfl rfl (by rfl) (by rfl)).2.2.2.2.2.1⟩

/-- Concrete cleanup environment in which the deadline elapses while both
internal steps fail. -/
def cleanupEnvW : CleanupEnv :=
  { timed_out := true
    gc_result := Except.error "gc error"
    current_dir := Except.ok "/work"
    cache_exists := true
    remove_result := Except.error "remove error" }

/-- Witness for the amended C3 at a concrete environment whose deadline
elapses: the result is the `Timeout` error and ignores the step failures. -/
theorem cleanup_resources_spec_witness :
    cleanupEnvW.current_dir.isOk = true ∧
    (cleanup_resources
        { cleanupEnvW with
            gc_result := Except.ok ()
            remove_result := Except.ok () } =
      cleanup_resources cleanupEnvW ∧
    cleanup_resources cleanupEnvW =
      (if cleanupEnvW.timed_out then Except.error "Cleanup timeout exceeded"
       else Except.ok ())) :=
  ⟨rfl, cleanup_resources_spec cleanupEnvW (Except.ok ()) (Except.ok ()) rfl⟩
